import Mathlib

set_option linter.unusedVariables false
set_option linter.unnecessarySeqFocus false

/-!
Verification of the razorpay-proxy server: a shallow embedding of the
request-authentication, signature-verification and upstream-forwarding logic
of `server.js` (and the two sibling variants of the same server), together
with theorems about its observable behaviour.

Conventions of the embedding:
* JavaScript values appearing in request/response bodies are modelled by the
  inductive type `Json`; an absent object property (JS `undefined`) is
  modelled by `Option Json = none`. JS truthiness is `Json.truthy`.
* Each route handler is a pure function from the environment, the parsed
  request body (or query), and the outcome of the single upstream `axios`
  call (supplied as an oracle of type `AxiosResult`) to the pair of the HTTP
  response sent to the caller and the list of outbound calls issued.
* `crypto.createHmac('sha256', key).update(text).digest('hex')` is embedded
  as an executable HMAC-SHA256 over the UTF-8 bytes of the strings.
-/

namespace RazorpayProxy

/-! ## Bytes, hex and UTF-8 -/

/-- The lowercase hexadecimal digit for a value below 16: the decimal
digits start at code point 48 and the letters a-f at code point 97. -/
def hexDigit (n : Nat) : Char :=
  if n < 10 then Char.ofNat (48 + n) else Char.ofNat (87 + n)

/-- Two lowercase hex characters for one byte. -/
def byteToHex (b : Nat) : List Char :=
  [hexDigit (b / 16 % 16), hexDigit (b % 16)]

/-- Lowercase hex encoding of a byte list. -/
def bytesToHex (bs : List Nat) : String :=
  String.mk (bs.foldr (fun b acc => byteToHex b ++ acc) [])

/-- UTF-8 encoding of one Unicode scalar value. -/
def utf8EncodeChar (c : Char) : List Nat :=
  let n := c.toNat
  if n < 128 then [n]
  else if n < 2048 then [192 + n / 64, 128 + n % 64]
  else if n < 65536 then [224 + n / 4096, 128 + n / 64 % 64, 128 + n % 64]
  else [240 + n / 262144, 128 + n / 4096 % 64, 128 + n / 64 % 64, 128 + n % 64]

/-- UTF-8 bytes of a string (Node's default encoding for `hmac.update`). -/
def strToBytes (s : String) : List Nat :=
  s.data.foldr (fun c acc => utf8EncodeChar c ++ acc) []

/-! ## SHA-256 -/

/-- Truncation to a 32-bit word. -/
def w32 (n : Nat) : Nat := n % 4294967296

/-- 32-bit addition. -/
def add32 (a b : Nat) : Nat := (a + b) % 4294967296

/-- 32-bit right rotation. -/
def rotr32 (n x : Nat) : Nat := w32 ((x >>> n) ||| (x <<< (32 - n)))

/-- Three-way xor. -/
def xor3 (a b c : Nat) : Nat := Nat.xor (Nat.xor a b) c

/-- SHA-256 Σ0. -/
def bigSigma0 (x : Nat) : Nat := xor3 (rotr32 2 x) (rotr32 13 x) (rotr32 22 x)

/-- SHA-256 Σ1. -/
def bigSigma1 (x : Nat) : Nat := xor3 (rotr32 6 x) (rotr32 11 x) (rotr32 25 x)

/-- SHA-256 σ0. -/
def smallSigma0 (x : Nat) : Nat := xor3 (rotr32 7 x) (rotr32 18 x) (x >>> 3)

/-- SHA-256 σ1. -/
def smallSigma1 (x : Nat) : Nat := xor3 (rotr32 17 x) (rotr32 19 x) (x >>> 10)

/-- SHA-256 Ch. -/
def shaCh (x y z : Nat) : Nat :=
  Nat.xor (Nat.land x y) (Nat.land (Nat.xor x 4294967295) z)

/-- SHA-256 Maj. -/
def shaMaj (x y z : Nat) : Nat :=
  xor3 (Nat.land x y) (Nat.land x z) (Nat.land y z)

/-- The 64 SHA-256 round constants of FIPS 180-4, as decimal 32-bit
values. -/
def shaK : Array Nat := #[
  1116352408, 1899447441, 3049323471, 3921009573, 961987163,
  1508970993, 2453635748, 2870763221, 3624381080, 310598401,
  607225278, 1426881987, 1925078388, 2162078206, 2614888103,
  3248222580, 3835390401, 4022224774, 264347078, 604807628,
  770255983, 1249150122, 1555081692, 1996064986, 2554220882,
  2821834349, 2952996808, 3210313671, 3336571891, 3584528711,
  113926993, 338241895, 666307205, 773529912, 1294757372,
  1396182291, 1695183700, 1986661051, 2177026350, 2456956037,
  2730485921, 2820302411, 3259730800, 3345764771, 3516065817,
  3600352804, 4094571909, 275423344, 430227734, 506948616,
  659060556, 883997877, 958139571, 1322822218, 1537002063,
  1747873779, 1955562222, 2024104815, 2227730452, 2361852424,
  2428436474, 2756734187, 3204031479, 3329325298]

/-- Working state of the compression function. -/
structure ShaState where
  a : Nat
  b : Nat
  c : Nat
  d : Nat
  e : Nat
  f : Nat
  g : Nat
  h : Nat

/-- Initial SHA-256 hash value of FIPS 180-4, as decimal 32-bit values. -/
def shaInit : ShaState :=
  ⟨1779033703, 3144134277, 1013904242, 2773480762,
   1359893119, 2600822924, 528734635, 1541459225⟩

/-- Big-endian 32-bit words from bytes, four bytes per word. -/
def bytesToWords : List Nat → List Nat
  | b0 :: b1 :: b2 :: b3 :: rest =>
      (((b0 * 256 + b1) * 256 + b2) * 256 + b3) :: bytesToWords rest
  | _ => []

/-- The 64-entry message schedule of one block. -/
def shaSchedule (block : List Nat) : Array Nat :=
  (List.range 48).foldl
    (fun w i =>
      w.push (add32 (add32 (smallSigma1 (w.getD (i + 14) 0)) (w.getD (i + 9) 0))
        (add32 (smallSigma0 (w.getD (i + 1) 0)) (w.getD i 0))))
    (bytesToWords block).toArray

/-- One round of the SHA-256 compression function. -/
def shaRound (wt : Array Nat) (st : ShaState) (t : Nat) : ShaState :=
  let t1 := add32 (add32 (add32 st.h (bigSigma1 st.e)) (add32 (shaCh st.e st.f st.g) (shaK.getD t 0)))
    (wt.getD t 0)
  let t2 := add32 (bigSigma0 st.a) (shaMaj st.a st.b st.c)
  ⟨add32 t1 t2, st.a, st.b, st.c, add32 st.d t1, st.e, st.f, st.g⟩

/-- Compression of one 64-byte block into the running state. -/
def shaCompress (st : ShaState) (block : List Nat) : ShaState :=
  let wt := shaSchedule block
  let r := (List.range 64).foldl (shaRound wt) st
  ⟨add32 st.a r.a, add32 st.b r.b, add32 st.c r.c, add32 st.d r.d,
   add32 st.e r.e, add32 st.f r.f, add32 st.g r.g, add32 st.h r.h⟩

/-- Big-endian 8-byte encoding of a length in bits. -/
def be64 (n : Nat) : List Nat :=
  [(n >>> 56) % 256, (n >>> 48) % 256, (n >>> 40) % 256, (n >>> 32) % 256,
   (n >>> 24) % 256, (n >>> 16) % 256, (n >>> 8) % 256, n % 256]

/-- SHA-256 padding: a 0x80 byte, zeros to 56 mod 64, then the bit length. -/
def padMessage (msg : List Nat) : List Nat :=
  let len := msg.length
  msg ++ 128 :: List.replicate ((119 - len % 64) % 64) 0 ++ be64 (8 * len)

/-- Split a byte list into 64-byte blocks; the fuel only bounds the number of
blocks produced and is always supplied as the length of the list, which is
ample since every block consumes 64 bytes. -/
def toBlocksAux : Nat → List Nat → List (List Nat)
  | 0, _ => []
  | _, [] => []
  | fuel + 1, bs => bs.take 64 :: toBlocksAux fuel (bs.drop 64)

/-- Split a byte list into 64-byte blocks. -/
def toBlocks (bs : List Nat) : List (List Nat) :=
  toBlocksAux bs.length bs

/-- Big-endian bytes of one 32-bit word. -/
def wordToBytes (n : Nat) : List Nat :=
  [(n >>> 24) % 256, (n >>> 16) % 256, (n >>> 8) % 256, n % 256]

/-- SHA-256 digest (32 bytes) of a byte list. -/
def sha256 (msg : List Nat) : List Nat :=
  let st := (toBlocks (padMessage msg)).foldl shaCompress shaInit
  wordToBytes st.a ++ wordToBytes st.b ++ wordToBytes st.c ++ wordToBytes st.d ++
    wordToBytes st.e ++ wordToBytes st.f ++ wordToBytes st.g ++ wordToBytes st.h

/-! ## HMAC-SHA256 -/

/-- HMAC-SHA256 with a 64-byte block size. -/
def hmacSha256 (key msg : List Nat) : List Nat :=
  let k0 := if key.length > 64 then sha256 key else key
  let kp := k0 ++ List.replicate (64 - k0.length) 0
  sha256 (kp.map (fun b => Nat.xor b 92) ++ sha256 (kp.map (fun b => Nat.xor b 54) ++ msg))

/-- The embedding of Node's
`crypto.createHmac('sha256', key).update(text).digest('hex')`. -/
def hmacSha256Hex (key text : String) : String :=
  bytesToHex (hmacSha256 (strToBytes key) (strToBytes text))

/-! ## A model of JavaScript JSON values

A parsed request body (or query object) is a `Json` value; an absent object
property (JS undefined) is `none` at the `Option Json` level. -/

/-- JSON values as delivered by the body parser, plus the JS objects the
handlers build. JS numbers are modelled by integers, which covers every
value the claims quantify over. -/
inductive Json where
  | null
  | bool (b : Bool)
  | num (n : Int)
  | str (s : String)
  | arr (elems : List Json)
  | obj (fields : List (String × Json))

/-- First binding of a key in an object's field list (the handlers build
objects with distinct keys, and JSON.parse keeps one binding per key). -/
def lookupField : List (String × Json) → String → Option Json
  | [], _ => none
  | (k, v) :: rest, key => if k = key then some v else lookupField rest key

/-- JS property access `j[key]`: a value for object properties, undefined
(`none`) otherwise — which is also what optional chaining yields. -/
def Json.get : Json → String → Option Json
  | .obj fs, key => lookupField fs key
  | _, _ => none

/-- JS truthiness of a defined value. -/
def Json.truthy : Json → Bool
  | .null => false
  | .bool b => b
  | .num n => n ≠ 0
  | .str s => s ≠ ""
  | .arr _ => true
  | .obj _ => true

/-- JS truthiness of a possibly-undefined value. -/
def jsTruthy (v : Option Json) : Bool :=
  match v with
  | some j => j.truthy
  | none => false

/-- The JS expression `v || d`: the left operand when truthy, else the right
operand (with undefined on the left also falling through). -/
def jsOr (v : Option Json) (d : Json) : Json :=
  match v with
  | some j => if j.truthy then j else d
  | none => d

mutual

/-- JS string coercion of a defined value, as performed by template
literals and the + operator. -/
def Json.toJsString : Json → String
  | .null => "null"
  | .bool true => "true"
  | .bool false => "false"
  | .num n => toString n
  | .str s => s
  | .arr es => jsonListToJsString es
  | .obj _ => "[object Object]"

/-- Array-to-string coercion: elements joined by commas, null elements
rendered empty. -/
def jsonListToJsString : List Json → String
  | [] => ""
  | [Json.null] => ""
  | [j] => Json.toJsString j
  | Json.null :: rest => "," ++ jsonListToJsString rest
  | j :: rest => Json.toJsString j ++ "," ++ jsonListToJsString rest

end

/-- JS string coercion with undefined rendered as "undefined". -/
def jsOptToString (v : Option Json) : String :=
  match v with
  | some j => j.toJsString
  | none => "undefined"

/-! ## Environment, requests and responses -/

/-- The environment variables the handlers read. `apiKey` is `none` when
the API_KEY variable is unset. -/
structure Env where
  razorpayKeyId : String
  razorpayKeySecret : String
  apiKey : Option String

/-- The HTTP response returned to the caller; `res.json` sends status 200
unless a status was set explicitly. -/
structure HttpResponse where
  status : Nat
  body : Json

/-- One outbound axios call: the method, the full URL, and the JSON request
body for POST calls (none for GET calls). -/
structure OutboundCall where
  method : String
  url : String
  body : Option Json

/-- The upstream error object axios attaches to a failed call that did
receive an HTTP response: its status code and response data. -/
structure ErrResp where
  status : Nat
  data : Json

/-- Outcome of the single upstream axios call a handler may issue, supplied
to the handler as an oracle: either a success carrying response data, or a
failure carrying the optional HTTP response (absent for transport-level
failures) and the error message. -/
inductive AxiosResult where
  | ok (data : Json)
  | fail (response : Option ErrResp) (message : String)

/-- Razorpay API base URL (server.js line 40). -/
def RAZORPAY_API : String := "https://api.razorpay.com/v1"

/-! ## Credential gate -/

/-- The authenticateApiKey middleware (server.js lines 29-37): deny when the
x-api-key header is missing, falsy, or not strictly equal to the API_KEY
environment value (a string is never strictly equal to an unset variable). -/
def authenticateApiKey (envApiKey headerApiKey : Option String) : Bool :=
  match headerApiKey with
  | none => false
  | some h =>
    if h = "" then false
    else
      match envApiKey with
      | some e => h = e
      | none => false

/-! ## Upstream error translation -/

/-- The status of the relay's error response:
error.response?.status || 500. -/
def upstreamStatus (r : Option ErrResp) : Nat :=
  match r with
  | some e => if e.status ≠ 0 then e.status else 500
  | none => 500

/-- The error body shared by the order, list, get-order, verify and plain
capture handlers: the object with error: error.response?.data ||
error.message. -/
def simpleErrorBody (r : Option ErrResp) (message : String) : Json :=
  Json.obj [("error", jsOr (r.map (fun e => e.data)) (Json.str message))]

/-! ## Create order: POST /api/orders (server.js lines 43-72) -/

/-- The outbound order body (server.js lines 48-53): amount forwarded as
received (and dropped from the serialized JSON when undefined), currency
defaulted with the or-operator, receipt defaulted from the current
timestamp, notes defaulted to an empty object. -/
def orderRequestBody (now : Nat) (body : Json) : Json :=
  Json.obj
    ((match body.get "amount" with
      | some a => [("amount", a)]
      | none => []) ++
     [("currency", jsOr (body.get "currency") (Json.str "INR")),
      ("receipt", jsOr (body.get "receipt") (Json.str ("receipt_" ++ toString now))),
      ("notes", jsOr (body.get "notes") (Json.obj []))])

/-- The POST /api/orders handler: builds the order body, always issues the
upstream call, relays success data verbatim and maps failures with the
shared error translation. -/
def createOrderHandler (env : Env) (now : Nat) (body : Json) (upstream : AxiosResult) :
    HttpResponse × List OutboundCall :=
  let call : OutboundCall := ⟨"POST", RAZORPAY_API ++ "/orders", some (orderRequestBody now body)⟩
  match upstream with
  | .ok data => (⟨200, data⟩, [call])
  | .fail r m => (⟨upstreamStatus r, simpleErrorBody r m⟩, [call])

/-! ## Get order: GET /api/orders/:orderId (server.js lines 82-103) -/

/-- The GET order-detail handler: forwards the opaque order id in the
upstream URL with no local validation. -/
def getOrderHandler (env : Env) (orderId : String) (upstream : AxiosResult) :
    HttpResponse × List OutboundCall :=
  let call : OutboundCall := ⟨"GET", RAZORPAY_API ++ "/orders/" ++ orderId, none⟩
  match upstream with
  | .ok data => (⟨200, data⟩, [call])
  | .fail r m => (⟨upstreamStatus r, simpleErrorBody r m⟩, [call])

/-! ## List orders: GET /api/orders (server.js lines 113-144) -/

/-- The URLSearchParams built at server.js lines 119-123: each of from, to,
count, skip is appended exactly when its query value is truthy. -/
def listQueryParams (query : Json) : List (String × String) :=
  (if jsTruthy (query.get "from") then [("from", jsOptToString (query.get "from"))] else []) ++
  (if jsTruthy (query.get "to") then [("to", jsOptToString (query.get "to"))] else []) ++
  (if jsTruthy (query.get "count") then [("count", jsOptToString (query.get "count"))] else []) ++
  (if jsTruthy (query.get "skip") then [("skip", jsOptToString (query.get "skip"))] else [])

/-- URLSearchParams.toString: key=value pairs joined by an ampersand
(values in the claims need no percent-escaping). -/
def renderQuery : List (String × String) → String
  | [] => ""
  | [p] => p.1 ++ "=" ++ p.2
  | p :: rest => p.1 ++ "=" ++ p.2 ++ "&" ++ renderQuery rest

/-- The query-string suffix (server.js line 125): prefixed with a question
mark when nonempty, else the empty string. -/
def listQueryString (query : Json) : String :=
  let qs := renderQuery (listQueryParams query)
  if qs ≠ "" then "?" ++ qs else ""

/-- The GET /api/orders list handler. -/
def listOrdersHandler (env : Env) (query : Json) (upstream : AxiosResult) :
    HttpResponse × List OutboundCall :=
  let call : OutboundCall := ⟨"GET", RAZORPAY_API ++ "/orders" ++ listQueryString query, none⟩
  match upstream with
  | .ok data => (⟨200, data⟩, [call])
  | .fail r m => (⟨upstreamStatus r, simpleErrorBody r m⟩, [call])

/-! ## Verify payment: POST /api/payments/verify (server.js lines 154-195) -/

/-- The recomputed signature (server.js lines 159-163): HMAC-SHA256, keyed
with RAZORPAY_KEY_SECRET, of the order_id, a pipe, and the payment_id, as a
lowercase hex digest. -/
def generatedSignature (env : Env) (body : Json) : String :=
  hmacSha256Hex env.razorpayKeySecret
    (jsOptToString (body.get "order_id") ++ "|" ++ jsOptToString (body.get "payment_id"))

/-- The strict comparison of the generated and supplied signatures at
server.js line 165: a non-string signature value is never strictly equal to
the generated string. -/
def signatureMatches (env : Env) (body : Json) : Bool :=
  match body.get "signature" with
  | some (Json.str s) => generatedSignature env body = s
  | _ => false

/-- The POST /api/payments/verify handler: on signature mismatch respond
200 with verified:false and no upstream call; on match, look the payment up
upstream, succeeding with verified:true plus the payment status and record,
or propagating the upstream failure with verified:false. -/
def verifyPaymentHandler (env : Env) (body : Json) (upstream : AxiosResult) :
    HttpResponse × List OutboundCall :=
  if signatureMatches env body = false then
    (⟨200, Json.obj [("verified", Json.bool false), ("error", Json.str "Invalid signature")]⟩, [])
  else
    let call : OutboundCall :=
      ⟨"GET", RAZORPAY_API ++ "/payments/" ++ jsOptToString (body.get "payment_id"), none⟩
    match upstream with
    | .ok data =>
      (⟨200, Json.obj
          ([("verified", Json.bool true)] ++
           (match data.get "status" with
            | some s => [("status", s)]
            | none => []) ++
           [("payment", data)])⟩, [call])
    | .fail r m =>
      (⟨upstreamStatus r,
        Json.obj [("verified", Json.bool false),
                  ("error", jsOr (r.map (fun e => e.data)) (Json.str m))]⟩, [call])

/-! ## Capture payment: POST /api/payments/capture (server.js lines 205-239) -/

/-- The outbound capture body (server.js lines 213-216): an empty object,
with the amount added only when the supplied amount is truthy. -/
def captureRequestBody (body : Json) : Json :=
  match body.get "amount" with
  | some a => if a.truthy then Json.obj [("amount", a)] else Json.obj []
  | none => Json.obj []

/-- The POST /api/payments/capture handler of server.js: 400 before any
upstream call when payment_id is falsy, otherwise relay the capture call
with the shared error translation. -/
def capturePaymentHandler (env : Env) (body : Json) (upstream : AxiosResult) :
    HttpResponse × List OutboundCall :=
  if jsTruthy (body.get "payment_id") = false then
    (⟨400, Json.obj [("error", Json.str "payment_id is required")]⟩, [])
  else
    let call : OutboundCall :=
      ⟨"POST", RAZORPAY_API ++ "/payments/" ++ jsOptToString (body.get "payment_id") ++ "/capture",
       some (captureRequestBody body)⟩
    match upstream with
    | .ok data => (⟨200, data⟩, [call])
    | .fail r m => (⟨upstreamStatus r, simpleErrorBody r m⟩, [call])

/-! ## Hardened capture variant (src/unnamed/part_000 lines 224-276) -/

/-- The provider error object at razorpayError.response, then data, then
its error property, each step through optional chaining. -/
def dataError (r : Option ErrResp) : Option Json :=
  match r with
  | some e => e.data.get "error"
  | none => none

/-- The provider error description: the description property of the
provider error object. -/
def errDescription (r : Option ErrResp) : Option Json :=
  match dataError r with
  | some de => de.get "description"
  | none => none

/-- The provider error code: the code property of the provider error
object. -/
def errCode (r : Option ErrResp) : Option Json :=
  match dataError r with
  | some de => de.get "code"
  | none => none

/-- The layered error detail of part_000 lines 260-263: the provider
description, else the provider error object, else the transport message,
else a static unknown-error string — each tried by JS truthiness. -/
def captureErrorDetail (r : Option ErrResp) (m : String) : Json :=
  if jsTruthy (errDescription r) then (errDescription r).getD Json.null
  else if jsTruthy (dataError r) then (dataError r).getD Json.null
  else if m ≠ "" then Json.str m
  else Json.str "Unknown error occurred during payment capture"

/-- The error body of part_000 lines 265-268: the layered detail under
error, and the provider code under its own code key, which JSON
serialization drops when the code is undefined. -/
def captureErrorBody (r : Option ErrResp) (m : String) : Json :=
  Json.obj
    ([("error", captureErrorDetail r m)] ++
     (match errCode r with
      | some c => [("code", c)]
      | none => []))

/-- The hardened POST /api/payments/capture handler of part_000: same local
payment_id check and outbound body as server.js, but upstream failures are
translated with the layered detail and the separate code field. -/
def capturePaymentHardened (env : Env) (body : Json) (upstream : AxiosResult) :
    HttpResponse × List OutboundCall :=
  if jsTruthy (body.get "payment_id") = false then
    (⟨400, Json.obj [("error", Json.str "payment_id is required")]⟩, [])
  else
    let call : OutboundCall :=
      ⟨"POST", RAZORPAY_API ++ "/payments/" ++ jsOptToString (body.get "payment_id") ++ "/capture",
       some (captureRequestBody body)⟩
    match upstream with
    | .ok data => (⟨200, data⟩, [call])
    | .fail r m => (⟨upstreamStatus r, captureErrorBody r m⟩, [call])

/-! ## Capture-enforcing create order (src/unnamed/part_000 lines 344-374) -/

/-- The outbound order body of the capture-enforcing variant: as in
server.js but with payment_capture pinned to 1, regardless of any
payment_capture value in the caller's body (which is never read). -/
def orderRequestBodyCaptureEnforcing (now : Nat) (body : Json) : Json :=
  Json.obj
    ((match body.get "amount" with
      | some a => [("amount", a)]
      | none => []) ++
     [("currency", jsOr (body.get "currency") (Json.str "INR")),
      ("receipt", jsOr (body.get "receipt") (Json.str ("receipt_" ++ toString now))),
      ("payment_capture", Json.num 1),
      ("notes", jsOr (body.get "notes") (Json.obj []))])

/-- The capture-enforcing POST /create-order handler of part_000. -/
def createOrderCaptureEnforcing (env : Env) (now : Nat) (body : Json) (upstream : AxiosResult) :
    HttpResponse × List OutboundCall :=
  let call : OutboundCall :=
    ⟨"POST", RAZORPAY_API ++ "/orders", some (orderRequestBodyCaptureEnforcing now body)⟩
  match upstream with
  | .ok data => (⟨200, data⟩, [call])
  | .fail r m => (⟨upstreamStatus r, simpleErrorBody r m⟩, [call])

/-! ## Routing and legacy-alias redirection

The Express routing layer is abstracted to a structured path type; the
handlers above carry all behavioural content. Legacy aliases are modelled
the way the source implements them: the alias route authenticates, rewrites
req.url to the canonical path and re-dispatches through the router. The
rewrite replaces the whole url, so any query string of the original request
is dropped and req.query re-parses as empty on the re-dispatch. -/

/-- The HTTP methods the server registers routes for. -/
inductive Method where
  | GET
  | POST

/-- The request paths the server routes (legacy aliases included), plus a
catch-all for unmatched paths. -/
inductive ReqPath where
  | apiOrders
  | createOrderLegacy
  | apiOrderDetail (orderId : String)
  | orderDetailLegacy (orderId : String)
  | ordersLegacy
  | apiPaymentsVerify
  | verifyPaymentLegacy
  | apiPaymentsCapture
  | capturePaymentLegacy
  | health
  | apiRoot
  | other (path : String)

/-- The static legacy-alias table: each deprecated route with the canonical
path its handler rewrites req.url to. -/
def aliasTarget (method : Method) (path : ReqPath) : Option ReqPath :=
  match method, path with
  | .POST, .createOrderLegacy => some .apiOrders
  | .GET, .orderDetailLegacy oid => some (.apiOrderDetail oid)
  | .GET, .ordersLegacy => some .apiOrders
  | .POST, .verifyPaymentLegacy => some .apiPaymentsVerify
  | .POST, .capturePaymentLegacy => some .apiPaymentsCapture
  | _, _ => none

/-- The fixed 401 body sent by the credential gate. -/
def unauthorizedResponse : HttpResponse :=
  ⟨401, Json.obj [("error", Json.str "Unauthorized")]⟩

/-- Express's default 404 for unmatched paths (its HTML body is opaque to
the claims and modelled as null). -/
def notFoundResponse : HttpResponse := ⟨404, Json.null⟩

/-- The static GET /api service descriptor (server.js lines 254-265). -/
def apiDescriptor : Json :=
  Json.obj
    [("name", Json.str "Razorpay Proxy API"),
     ("version", Json.str "1.0.0"),
     ("endpoints", Json.obj
        [("orders", Json.str "/api/orders"),
         ("verifyPayment", Json.str "/api/payments/verify"),
         ("capturePayment", Json.str "/api/payments/capture"),
         ("health", Json.str "/health")])]

/-- The authenticateApiKey middleware wrapped around a route handler: on
DENY the 401 is sent and the handler never runs, so no outbound call is
issued. -/
def withAuth (env : Env) (header : Option String) (result : HttpResponse × List OutboundCall) :
    HttpResponse × List OutboundCall :=
  if authenticateApiKey env.apiKey header then result else (unauthorizedResponse, [])

/-- Dispatch to the canonical routes of server.js, each behind the
credential gate except the health probe and the service descriptor. -/
def dispatchCore (env : Env) (now : Nat) (method : Method) (path : ReqPath)
    (header : Option String) (body query : Json) (upstream : AxiosResult) :
    HttpResponse × List OutboundCall :=
  match method, path with
  | .POST, .apiOrders => withAuth env header (createOrderHandler env now body upstream)
  | .GET, .apiOrderDetail oid => withAuth env header (getOrderHandler env oid upstream)
  | .GET, .apiOrders => withAuth env header (listOrdersHandler env query upstream)
  | .POST, .apiPaymentsVerify => withAuth env header (verifyPaymentHandler env body upstream)
  | .POST, .apiPaymentsCapture => withAuth env header (capturePaymentHandler env body upstream)
  | .GET, .health => (⟨200, Json.obj [("status", Json.str "ok")]⟩, [])
  | .GET, .apiRoot => (⟨200, apiDescriptor⟩, [])
  | _, _ => (notFoundResponse, [])

/-- The full router of server.js: a legacy alias authenticates, rewrites
req.url to its canonical path (dropping any query string, so req.query
re-parses as empty) and re-dispatches; every other path is handled by the
canonical route table directly. -/
def dispatch (env : Env) (now : Nat) (method : Method) (path : ReqPath)
    (header : Option String) (body query : Json) (upstream : AxiosResult) :
    HttpResponse × List OutboundCall :=
  match aliasTarget method path with
  | some target =>
    if authenticateApiKey env.apiKey header then
      dispatchCore env now method target header body (Json.obj []) upstream
    else (unauthorizedResponse, [])
  | none => dispatchCore env now method path header body query upstream

/-- The routes registered behind the authenticateApiKey middleware: every
route except the health probe, the service descriptor and unmatched
paths. -/
def isAuthenticatedRoute (method : Method) (path : ReqPath) : Bool :=
  match method, path with
  | .POST, .apiOrders => true
  | .POST, .createOrderLegacy => true
  | .GET, .apiOrderDetail _ => true
  | .GET, .orderDetailLegacy _ => true
  | .GET, .apiOrders => true
  | .GET, .ordersLegacy => true
  | .POST, .apiPaymentsVerify => true
  | .POST, .verifyPaymentLegacy => true
  | .POST, .apiPaymentsCapture => true
  | .POST, .capturePaymentLegacy => true
  | _, _ => false

/-! ## Concrete fixtures for witnesses and counterexamples -/

/-- A concrete environment for witnesses. -/
def envEx : Env := ⟨"rzp_test_key", "test_secret", some "proxy_api_key"⟩

/-- A verify body whose signature is exactly the digest the handler
recomputes for it. -/
def verifyBodyOk : Json :=
  Json.obj
    [("payment_id", Json.str "pay_123"),
     ("order_id", Json.str "order_123"),
     ("signature", Json.str (hmacSha256Hex "test_secret" "order_123|pay_123"))]

/-- A concrete upstream payment record. -/
def payJson : Json :=
  Json.obj [("id", Json.str "pay_123"), ("status", Json.str "captured")]

/-- A concrete structured provider error payload with a description and a
code. -/
def provErrData : Json :=
  Json.obj
    [("error", Json.obj
       [("code", Json.str "BAD_REQUEST_ERROR"),
        ("description", Json.str "The amount exceeds the maximum amount allowed")])]

/-! ## Computation lemmas for property lookup -/

/-- Property access on an object is field lookup. -/
@[simp]
theorem Json.get_obj (fs : List (String × Json)) (key : String) :
    Json.get (Json.obj fs) key = lookupField fs key := rfl

/-- Lookup in the empty field list. -/
@[simp]
theorem lookupField_nil (key : String) : lookupField [] key = none := rfl

/-- Lookup steps through one field. -/
@[simp]
theorem lookupField_cons (k : String) (v : Json) (rest : List (String × Json)) (key : String) :
    lookupField ((k, v) :: rest) key = if k = key then some v else lookupField rest key := rfl

/-! ## Grounding of the cryptographic embedding -/

set_option maxRecDepth 100000 in
/-- The SHA-256 embedding reproduces the FIPS 180-4 test vector for the
message "abc", checked by kernel evaluation. -/
theorem sha256_test_vector :
    bytesToHex (sha256 (strToBytes "abc")) =
      "ba7816bf8f01cfea414140de5dae2223b00361a396177a9cb410ff61f20015ad" := by
  rfl

/-! ## Theorems about the claims -/

/-- C2 counterexample: an order request with amount absent is not rejected
locally — the handler still issues one outbound call and relays the fixed
upstream success with a success status, contradicting a local
ValidationFailure with zero outbound calls. -/
theorem claim_C2_counterexample :
    (createOrderHandler envEx 0 (Json.obj []) (AxiosResult.ok payJson)).2.length = 1 ∧
    (createOrderHandler envEx 0 (Json.obj []) (AxiosResult.ok payJson)).1.status = 200 :=
  ⟨rfl, rfl⟩

/-- C2 (amended): CreateOrder performs no local validation of amount; when
amount is absent the handler still issues exactly one outbound call, whose
body omits amount (the undefined property is dropped by serialization) and
carries the defaulted currency, receipt and notes. -/
theorem claim_C2_amended_no_local_validation (env : Env) (now : Nat) (body : Json)
    (upstream : AxiosResult) (h : body.get "amount" = none) :
    (createOrderHandler env now body upstream).2 =
      [⟨"POST", RAZORPAY_API ++ "/orders",
        some (Json.obj
          [("currency", jsOr (body.get "currency") (Json.str "INR")),
           ("receipt", jsOr (body.get "receipt") (Json.str ("receipt_" ++ toString now))),
           ("notes", jsOr (body.get "notes") (Json.obj []))])⟩] ∧
    (orderRequestBody now body).get "amount" = none := by
  have hbody : orderRequestBody now body =
      Json.obj
        [("currency", jsOr (body.get "currency") (Json.str "INR")),
         ("receipt", jsOr (body.get "receipt") (Json.str ("receipt_" ++ toString now))),
         ("notes", jsOr (body.get "notes") (Json.obj []))] := by
    simp only [orderRequestBody, h, List.nil_append]
  refine ⟨?_, ?_⟩
  · cases upstream <;> simp [createOrderHandler, hbody]
  · simp [hbody]

/-- C2 witness: the amended statement evaluated at a concrete amount-free
request. -/
theorem claim_C2_witness :
    (createOrderHandler envEx 7 (Json.obj []) (AxiosResult.ok payJson)).2 =
      [⟨"POST", RAZORPAY_API ++ "/orders",
        some (Json.obj
          [("currency", Json.str "INR"),
           ("receipt", Json.str "receipt_7"),
           ("notes", Json.obj [])])⟩] ∧
    (orderRequestBody 7 (Json.obj [])).get "amount" = none := by
  exact claim_C2_amended_no_local_validation envEx 7 (Json.obj []) (AxiosResult.ok payJson) rfl

/-- C6: a capture request with falsy payment_id gets the local 400 response
and zero outbound calls; with truthy payment_id the single outbound body is
the captureRequestBody, whose amount, when present, is exactly the supplied
amount, and which omits amount whenever the caller omitted it. -/
theorem claim_C6_capture_validation (env : Env) (body : Json) (upstream : AxiosResult) :
    (jsTruthy (body.get "payment_id") = false →
      capturePaymentHandler env body upstream =
        (⟨400, Json.obj [("error", Json.str "payment_id is required")]⟩, [])) ∧
    (jsTruthy (body.get "payment_id") = true →
      (capturePaymentHandler env body upstream).2.map (fun c => c.body) =
        [some (captureRequestBody body)] ∧
      (∀ v, (captureRequestBody body).get "amount" = some v → body.get "amount" = some v) ∧
      (body.get "amount" = none → (captureRequestBody body).get "amount" = none)) := by
  constructor
  · intro h
    simp [capturePaymentHandler, h]
  · intro h
    refine ⟨by cases upstream <;> simp [capturePaymentHandler, h], ?_, ?_⟩
    · intro v hv
      cases hA : body.get "amount" with
      | none =>
        rw [captureRequestBody, hA] at hv
        simp at hv
      | some a =>
        rw [captureRequestBody, hA] at hv
        by_cases ht : a.truthy
        · simp [ht] at hv
          simp [hA, hv]
        · simp [ht] at hv
    · intro hA
      rw [captureRequestBody, hA]
      simp

/-- C6 witness: both branches of the theorem at concrete capture
requests. -/
theorem claim_C6_witness :
    capturePaymentHandler envEx (Json.obj []) (AxiosResult.ok payJson) =
      (⟨400, Json.obj [("error", Json.str "payment_id is required")]⟩, []) ∧
    (capturePaymentHandler envEx (Json.obj [("payment_id", Json.str "pay_9")])
        (AxiosResult.ok payJson)).2.map (fun c => c.body) =
      [some (captureRequestBody (Json.obj [("payment_id", Json.str "pay_9")]))] :=
  ⟨(claim_C6_capture_validation envEx (Json.obj []) (AxiosResult.ok payJson)).1 rfl,
   ((claim_C6_capture_validation envEx (Json.obj [("payment_id", Json.str "pay_9")])
      (AxiosResult.ok payJson)).2 rfl).1⟩

/-- C9: a capture request that supplies amount as the number 0 behaves
exactly like one that omits amount — the truthiness test drops it from the
outbound body, which is the empty object asking for a full capture. -/
theorem claim_C9_amount_zero_omitted (env : Env) (pid : Json) (upstream : AxiosResult) :
    capturePaymentHandler env (Json.obj [("payment_id", pid), ("amount", Json.num 0)]) upstream =
      capturePaymentHandler env (Json.obj [("payment_id", pid)]) upstream ∧
    captureRequestBody (Json.obj [("payment_id", pid), ("amount", Json.num 0)]) = Json.obj [] := by
  have h0 : (Json.num 0).truthy = false := by decide
  constructor
  · by_cases hp : pid.truthy <;> cases upstream <;>
      simp [capturePaymentHandler, captureRequestBody, jsTruthy, jsOptToString, h0, hp]
  · simp [captureRequestBody, h0]


/-- C7 counterexample: a list request whose from parameter is present with
the empty value (the query ?from=) does not forward from — the outbound URL
has no query string at all, refuting appearance-iff-presence. -/
theorem claim_C7_counterexample :
    (Json.obj [("from", Json.str "")]).get "from" = some (Json.str "") ∧
    listQueryParams (Json.obj [("from", Json.str "")]) = [] ∧
    (listOrdersHandler envEx (Json.obj [("from", Json.str "")]) (AxiosResult.ok payJson)).2 =
      [⟨"GET", RAZORPAY_API ++ "/orders", none⟩] :=
  ⟨rfl, rfl, rfl⟩

/-- A string starting with a nonempty string is nonempty. -/
theorem str_append_ne_empty (a b : String) (h : 0 < a.length) : a ++ b ≠ "" := by
  intro he
  have hl := congrArg String.length he
  simp [String.length_append] at hl
  omega

/-- The single outbound call of the list handler, for both upstream
outcomes. -/
theorem listOrders_calls (env : Env) (q : Json) (u : AxiosResult) :
    (listOrdersHandler env q u).2 = [⟨"GET", RAZORPAY_API ++ "/orders" ++ listQueryString q, none⟩] := by
  cases u <;> rfl

/-- With every filter falsy the query-string suffix is empty. -/
theorem listQueryString_empty (q : Json)
    (hf : jsTruthy (q.get "from") = false) (ht : jsTruthy (q.get "to") = false)
    (hc : jsTruthy (q.get "count") = false) (hs : jsTruthy (q.get "skip") = false) :
    listQueryString q = "" := by
  simp [listQueryString, listQueryParams, renderQuery, hf, ht, hc, hs]

/-- With only from truthy the query-string suffix is a question mark
followed by the rendered from pair. -/
theorem listQueryString_only_from (q : Json)
    (hf : jsTruthy (q.get "from") = true) (ht : jsTruthy (q.get "to") = false)
    (hc : jsTruthy (q.get "count") = false) (hs : jsTruthy (q.get "skip") = false) :
    listQueryString q = "?" ++ renderQuery [("from", jsOptToString (q.get "from"))] := by
  have hne : "from=" ++ jsOptToString (q.get "from") ≠ "" :=
    str_append_ne_empty "from=" (jsOptToString (q.get "from")) (by decide)
  simp only [listQueryString, listQueryParams, hf, ht, hc, hs]
  simp [renderQuery, hne]

/-- C7 (amended): each of the four filters appears among the outbound query
parameters if and only if it is present with a truthy (non-empty) value;
with no truthy filter the outbound URL carries no query string, and with
only from truthy the parameter list is exactly the from pair, rendered
after a question mark. -/
theorem claim_C7_amended_filters (env : Env) (query : Json) (upstream : AxiosResult) :
    (("from" ∈ (listQueryParams query).map Prod.fst) ↔ jsTruthy (query.get "from") = true) ∧
    (("to" ∈ (listQueryParams query).map Prod.fst) ↔ jsTruthy (query.get "to") = true) ∧
    (("count" ∈ (listQueryParams query).map Prod.fst) ↔ jsTruthy (query.get "count") = true) ∧
    (("skip" ∈ (listQueryParams query).map Prod.fst) ↔ jsTruthy (query.get "skip") = true) ∧
    (jsTruthy (query.get "from") = false → jsTruthy (query.get "to") = false →
     jsTruthy (query.get "count") = false → jsTruthy (query.get "skip") = false →
      (listOrdersHandler env query upstream).2 = [⟨"GET", RAZORPAY_API ++ "/orders", none⟩]) ∧
    (jsTruthy (query.get "from") = true → jsTruthy (query.get "to") = false →
     jsTruthy (query.get "count") = false → jsTruthy (query.get "skip") = false →
      listQueryParams query = [("from", jsOptToString (query.get "from"))] ∧
      listQueryString query =
        "?" ++ renderQuery [("from", jsOptToString (query.get "from"))]) := by
  refine ⟨?_, ?_, ?_, ?_, ?_, ?_⟩
  · by_cases hf : jsTruthy (query.get "from") = true <;>
    by_cases ht : jsTruthy (query.get "to") = true <;>
    by_cases hc : jsTruthy (query.get "count") = true <;>
    by_cases hs : jsTruthy (query.get "skip") = true <;>
      simp_all [listQueryParams]
  · by_cases hf : jsTruthy (query.get "from") = true <;>
    by_cases ht : jsTruthy (query.get "to") = true <;>
    by_cases hc : jsTruthy (query.get "count") = true <;>
    by_cases hs : jsTruthy (query.get "skip") = true <;>
      simp_all [listQueryParams]
  · by_cases hf : jsTruthy (query.get "from") = true <;>
    by_cases ht : jsTruthy (query.get "to") = true <;>
    by_cases hc : jsTruthy (query.get "count") = true <;>
    by_cases hs : jsTruthy (query.get "skip") = true <;>
      simp_all [listQueryParams]
  · by_cases hf : jsTruthy (query.get "from") = true <;>
    by_cases ht : jsTruthy (query.get "to") = true <;>
    by_cases hc : jsTruthy (query.get "count") = true <;>
    by_cases hs : jsTruthy (query.get "skip") = true <;>
      simp_all [listQueryParams]
  · intro hf ht hc hs
    rw [listOrders_calls, listQueryString_empty query hf ht hc hs, String.append_empty]
  · intro hf ht hc hs
    exact ⟨by simp [listQueryParams, hf, ht, hc, hs],
           listQueryString_only_from query hf ht hc hs⟩

/-- C7 witness: the amended statement at a request with only from supplied,
and at a request with no filters. -/
theorem claim_C7_witness :
    listQueryParams (Json.obj [("from", Json.str "1700000000")]) = [("from", "1700000000")] ∧
    (listOrdersHandler envEx (Json.obj []) (AxiosResult.ok payJson)).2 =
      [⟨"GET", RAZORPAY_API ++ "/orders", none⟩] := by
  refine ⟨?_, ?_⟩
  · exact ((claim_C7_amended_filters envEx (Json.obj [("from", Json.str "1700000000")])
      (AxiosResult.ok payJson)).2.2.2.2.2 rfl rfl rfl rfl).1
  · exact (claim_C7_amended_filters envEx (Json.obj [])
      (AxiosResult.ok payJson)).2.2.2.2.1 rfl rfl rfl rfl

/-- A concrete order request supplying the empty string as currency. -/
def currencyEmptyBody : Json :=
  Json.obj [("amount", Json.num 100), ("currency", Json.str "")]

/-- C8 counterexample: a supplied empty-string currency is not forwarded —
the outbound body carries INR instead of the supplied value, so the
outbound currency is neither the supplied currency nor covered by the
omitted case. -/
theorem claim_C8_counterexample :
    currencyEmptyBody.get "currency" = some (Json.str "") ∧
    (orderRequestBody 0 currencyEmptyBody).get "currency" = some (Json.str "INR") ∧
    (orderRequestBody 0 currencyEmptyBody).get "currency" ≠ currencyEmptyBody.get "currency" := by
  refine ⟨rfl, rfl, ?_⟩
  show some (Json.str "INR") ≠ some (Json.str "")
  simp

/-- C8 (amended): with amount present, the outbound currency is the
supplied currency when that value is truthy (a non-empty string) and INR
when it is omitted or falsy; and the capture-enforcing variant always sends
payment_capture 1, whatever the caller's body contains. -/
theorem claim_C8_amended_currency_capture (env : Env) (now : Nat) (body : Json)
    (upstream : AxiosResult) (hamt : jsTruthy (body.get "amount") = true) :
    (jsTruthy (body.get "currency") = true →
      (orderRequestBody now body).get "currency" = body.get "currency") ∧
    (jsTruthy (body.get "currency") = false →
      (orderRequestBody now body).get "currency" = some (Json.str "INR")) ∧
    (orderRequestBodyCaptureEnforcing now body).get "payment_capture" = some (Json.num 1) ∧
    (createOrderCaptureEnforcing env now body upstream).2 =
      [⟨"POST", RAZORPAY_API ++ "/orders", some (orderRequestBodyCaptureEnforcing now body)⟩] := by
  cases hA : body.get "amount" with
  | none => rw [hA] at hamt; simp [jsTruthy] at hamt
  | some a =>
    refine ⟨?_, ?_, ?_, ?_⟩
    · intro hcur
      cases hC : body.get "currency" with
      | none => rw [hC] at hcur; simp [jsTruthy] at hcur
      | some c =>
        rw [hC] at hcur
        simp [jsTruthy] at hcur
        simp [orderRequestBody, hA, hC, jsOr, hcur]
    · intro hcur
      cases hC : body.get "currency" with
      | none => simp [orderRequestBody, hA, hC, jsOr]
      | some c =>
        rw [hC] at hcur
        simp [jsTruthy] at hcur
        simp [orderRequestBody, hA, hC, jsOr, hcur]
    · simp [orderRequestBodyCaptureEnforcing, hA]
    · cases upstream <;> simp [createOrderCaptureEnforcing]

/-- C8 witness: the amended statement at a concrete order request with a
truthy amount and no currency. -/
theorem claim_C8_witness :
    (orderRequestBody 3 (Json.obj [("amount", Json.num 500)])).get "currency" =
      some (Json.str "INR") ∧
    (orderRequestBodyCaptureEnforcing 3 (Json.obj [("amount", Json.num 500)])).get
        "payment_capture" = some (Json.num 1) := by
  have h := claim_C8_amended_currency_capture envEx 3 (Json.obj [("amount", Json.num 500)])
    (AxiosResult.ok payJson) (by decide)
  exact ⟨h.2.1 rfl, h.2.2.1⟩

/-- C4 counterexample: when CreateOrder fails upstream with a structured
error carrying a description and a code, the translated body nests the
whole provider payload under error — the description is not surfaced as the
error detail and no code field exists, refuting the uniform layered
policy. -/
theorem claim_C4_counterexample :
    (createOrderHandler envEx 0 (Json.obj [("amount", Json.num 100)])
        (AxiosResult.fail (some ⟨400, provErrData⟩)
          "Request failed with status code 400")).1.body.get "error" = some provErrData ∧
    (createOrderHandler envEx 0 (Json.obj [("amount", Json.num 100)])
        (AxiosResult.fail (some ⟨400, provErrData⟩)
          "Request failed with status code 400")).1.body.get "code" = none ∧
    (createOrderHandler envEx 0 (Json.obj [("amount", Json.num 100)])
        (AxiosResult.fail (some ⟨400, provErrData⟩)
          "Request failed with status code 400")).1.body.get "error" ≠
      some (Json.str "The amount exceeds the maximum amount allowed") := by
  refine ⟨rfl, rfl, ?_⟩
  show some provErrData ≠ some (Json.str "The amount exceeds the maximum amount allowed")
  simp [provErrData]

/-- C4 (amended): only the hardened capture handler implements the layered
policy — its failure response has the upstream-or-500 status, its error
field follows the description, provider-error-object, transport-message,
static-string preference in that order, and its code field is present with
exactly the provider code when one exists; every other relay operation —
CreateOrder, GetOrder, ListOrders, and capture in the base variant —
responds with the upstream-or-500 status and the whole provider payload
(or transport message) under a single error field, with no code field. -/
theorem claim_C4_amended_error_mapping (env : Env) (now : Nat) (bodyC body : Json)
    (orderId : String) (query : Json) (r : Option ErrResp) (m : String)
    (hpid : jsTruthy (bodyC.get "payment_id") = true) :
    (capturePaymentHardened env bodyC (AxiosResult.fail r m)).1.status = upstreamStatus r ∧
    (capturePaymentHardened env bodyC (AxiosResult.fail r m)).1.body = captureErrorBody r m ∧
    (jsTruthy (errDescription r) = true →
      captureErrorDetail r m = (errDescription r).getD Json.null) ∧
    (jsTruthy (errDescription r) = false → jsTruthy (dataError r) = true →
      captureErrorDetail r m = (dataError r).getD Json.null) ∧
    (jsTruthy (errDescription r) = false → jsTruthy (dataError r) = false → m ≠ "" →
      captureErrorDetail r m = Json.str m) ∧
    (jsTruthy (errDescription r) = false → jsTruthy (dataError r) = false → m = "" →
      captureErrorDetail r m = Json.str "Unknown error occurred during payment capture") ∧
    (captureErrorBody r m).get "error" = some (captureErrorDetail r m) ∧
    (captureErrorBody r m).get "code" = errCode r ∧
    (createOrderHandler env now body (AxiosResult.fail r m)).1 =
      ⟨upstreamStatus r, Json.obj [("error", jsOr (r.map (fun e => e.data)) (Json.str m))]⟩ ∧
    (getOrderHandler env orderId (AxiosResult.fail r m)).1 =
      ⟨upstreamStatus r, Json.obj [("error", jsOr (r.map (fun e => e.data)) (Json.str m))]⟩ ∧
    (listOrdersHandler env query (AxiosResult.fail r m)).1 =
      ⟨upstreamStatus r, Json.obj [("error", jsOr (r.map (fun e => e.data)) (Json.str m))]⟩ ∧
    (capturePaymentHandler env bodyC (AxiosResult.fail r m)).1 =
      ⟨upstreamStatus r, Json.obj [("error", jsOr (r.map (fun e => e.data)) (Json.str m))]⟩ := by
  refine ⟨?_, ?_, ?_, ?_, ?_, ?_, ?_, ?_, ?_, ?_, ?_, ?_⟩
  · simp [capturePaymentHardened, hpid]
  · simp [capturePaymentHardened, hpid]
  · intro h1
    simp [captureErrorDetail, h1]
  · intro h1 h2
    simp [captureErrorDetail, h1, h2]
  · intro h1 h2 h3
    simp [captureErrorDetail, h1, h2, h3]
  · intro h1 h2 h3
    simp [captureErrorDetail, h1, h2, h3]
  · cases hcode : errCode r <;> simp [captureErrorBody, hcode]
  · cases hcode : errCode r <;> simp [captureErrorBody, hcode]
  · simp [createOrderHandler, simpleErrorBody]
  · simp [getOrderHandler, simpleErrorBody]
  · simp [listOrdersHandler, simpleErrorBody]
  · simp [capturePaymentHandler, simpleErrorBody, hpid]

/-- C4 witness: the amended statement at a concrete failed capture whose
provider error has a description and a code. -/
theorem claim_C4_witness :
    (capturePaymentHardened envEx (Json.obj [("payment_id", Json.str "pay_9")])
        (AxiosResult.fail (some ⟨400, provErrData⟩) "boom")).1.status = 400 ∧
    (capturePaymentHardened envEx (Json.obj [("payment_id", Json.str "pay_9")])
        (AxiosResult.fail (some ⟨400, provErrData⟩) "boom")).1.body =
      Json.obj
        [("error", Json.str "The amount exceeds the maximum amount allowed"),
         ("code", Json.str "BAD_REQUEST_ERROR")] := by
  have h := claim_C4_amended_error_mapping envEx 0 (Json.obj [("payment_id", Json.str "pay_9")])
    (Json.obj []) "order_1" (Json.obj []) (some ⟨400, provErrData⟩) "boom" rfl
  exact ⟨h.1, h.2.1⟩


/-- C3: with a configured (present, non-empty) proxy secret, the gate
allows a request exactly when the x-api-key header is present and equal to
the secret, and on every authenticated route a denied request receives the
fixed 401 body with no handler run and zero outbound calls. -/
theorem claim_C3_credential_gate (env : Env) (k : String) (header : Option String)
    (now : Nat) (method : Method) (path : ReqPath) (body query : Json)
    (upstream : AxiosResult) (hk : env.apiKey = some k) (hne : k ≠ "") :
    (authenticateApiKey env.apiKey header = true ↔ header = some k) ∧
    (isAuthenticatedRoute method path = true →
      authenticateApiKey env.apiKey header = false →
      dispatch env now method path header body query upstream = (unauthorizedResponse, [])) := by
  constructor
  · rw [hk]
    cases header with
    | none => simp [authenticateApiKey]
    | some h =>
      by_cases h0 : h = ""
      · subst h0
        simp [authenticateApiKey]
        exact fun he => hne he.symm
      · simp [authenticateApiKey, h0]
  · intro hroute hdeny
    cases method <;> cases path <;>
      simp_all [dispatch, aliasTarget, dispatchCore, withAuth, isAuthenticatedRoute, hdeny]

/-- C3 witness: a wrong key on the canonical create-order route. -/
theorem claim_C3_witness :
    (authenticateApiKey envEx.apiKey (some "wrong-key") = true ↔
      (some "wrong-key" : Option String) = some "proxy_api_key") ∧
    (isAuthenticatedRoute Method.POST ReqPath.apiOrders = true →
      authenticateApiKey envEx.apiKey (some "wrong-key") = false →
      dispatch envEx 0 Method.POST ReqPath.apiOrders (some "wrong-key") (Json.obj [])
        (Json.obj []) (AxiosResult.ok payJson) = (unauthorizedResponse, [])) :=
  claim_C3_credential_gate envEx "proxy_api_key" (some "wrong-key") 0 Method.POST
    ReqPath.apiOrders (Json.obj []) (Json.obj []) (AxiosResult.ok payJson) rfl (by decide)

/-- C5: every legacy alias produces the response of its canonical route on
the same request — the alias authenticates, retargets to the canonical
path and re-runs the router, so validation, authentication and the
response coincide with a direct canonical call under the same fixed
upstream outcome. -/
theorem claim_C5_alias_equivalence (env : Env) (now : Nat) (method : Method) (path target : ReqPath)
    (header : Option String) (body query : Json) (upstream : AxiosResult)
    (h : aliasTarget method path = some target) :
    (dispatch env now method path header body query upstream).1 =
    (dispatch env now method target header body query upstream).1 := by
  by_cases hauth : authenticateApiKey env.apiKey header = true <;>
    cases method <;> cases path <;>
      simp_all [dispatch, aliasTarget, dispatchCore, withAuth] <;>
      (try subst h) <;>
      simp_all [dispatch, aliasTarget, dispatchCore, withAuth] <;>
      cases upstream <;> rfl

/-- C5 witness: the legacy capture alias and the canonical capture route
agree on a concrete request. -/
theorem claim_C5_witness :
    (dispatch envEx 0 Method.POST ReqPath.capturePaymentLegacy (some "proxy_api_key")
        (Json.obj [("payment_id", Json.str "pay_123")]) (Json.obj [])
        (AxiosResult.ok payJson)).1 =
    (dispatch envEx 0 Method.POST ReqPath.apiPaymentsCapture (some "proxy_api_key")
        (Json.obj [("payment_id", Json.str "pay_123")]) (Json.obj [])
        (AxiosResult.ok payJson)).1 :=
  claim_C5_alias_equivalence envEx 0 Method.POST ReqPath.capturePaymentLegacy
    ReqPath.apiPaymentsCapture (some "proxy_api_key")
    (Json.obj [("payment_id", Json.str "pay_123")]) (Json.obj [])
    (AxiosResult.ok payJson) rfl


/-- C1: the verify handler recomputes the hex HMAC-SHA256 of order_id, a
pipe, and payment_id under the upstream key-secret and compares it with the
supplied signature; on mismatch it answers 200 with verified:false and the
Invalid signature error, issuing no outbound call, and on match with a
successful upstream lookup it answers 200 with verified:true, the payment
status and the payment record, having issued exactly the payment lookup. -/
theorem claim_C1_verify_signature_contract (env : Env) (body : Json) (upstream : AxiosResult) :
    (signatureMatches env body = false →
      verifyPaymentHandler env body upstream =
        (⟨200, Json.obj [("verified", Json.bool false), ("error", Json.str "Invalid signature")]⟩,
         [])) ∧
    (∀ s, body.get "signature" = some (Json.str s) →
      hmacSha256Hex env.razorpayKeySecret
          (jsOptToString (body.get "order_id") ++ "|" ++ jsOptToString (body.get "payment_id")) = s →
      ∀ data, upstream = AxiosResult.ok data →
      verifyPaymentHandler env body upstream =
        (⟨200, Json.obj
            ([("verified", Json.bool true)] ++
             (match data.get "status" with
              | some st => [("status", st)]
              | none => []) ++
             [("payment", data)])⟩,
         [⟨"GET", RAZORPAY_API ++ "/payments/" ++ jsOptToString (body.get "payment_id"), none⟩])) := by
  constructor
  · intro h
    simp [verifyPaymentHandler, h]
  · intro s hs hgen data hup
    subst hup
    have hm : signatureMatches env body = true := by
      rw [signatureMatches, hs]
      simp [generatedSignature, hgen]
    simp [verifyPaymentHandler, hm]

/-- C1 witness: a confirmation carrying the recomputed digest as its
signature is verified against a fixed upstream payment record. -/
theorem claim_C1_witness :
    verifyPaymentHandler envEx verifyBodyOk (AxiosResult.ok payJson) =
      (⟨200, Json.obj
          [("verified", Json.bool true), ("status", Json.str "captured"), ("payment", payJson)]⟩,
       [⟨"GET", RAZORPAY_API ++ "/payments/pay_123", none⟩]) := by
  have h := (claim_C1_verify_signature_contract envEx verifyBodyOk (AxiosResult.ok payJson)).2
    (hmacSha256Hex "test_secret" "order_123|pay_123") rfl rfl payJson rfl
  exact h

/-- C10: when the supplied signature equals the recomputed digest but the
upstream payment lookup fails, the handler propagates the upstream status
(or 500) and detail with verified:false — so verified:false does not imply
an invalid signature. -/
theorem claim_C10_verify_upstream_failure (env : Env) (body : Json) (upstream : AxiosResult)
    (s : String) (hs : body.get "signature" = some (Json.str s))
    (hgen : hmacSha256Hex env.razorpayKeySecret
      (jsOptToString (body.get "order_id") ++ "|" ++ jsOptToString (body.get "payment_id")) = s)
    (r : Option ErrResp) (m : String) (hup : upstream = AxiosResult.fail r m) :
    verifyPaymentHandler env body upstream =
      (⟨upstreamStatus r,
        Json.obj [("verified", Json.bool false),
                  ("error", jsOr (r.map (fun e => e.data)) (Json.str m))]⟩,
       [⟨"GET", RAZORPAY_API ++ "/payments/" ++ jsOptToString (body.get "payment_id"), none⟩]) := by
  subst hup
  have hm : signatureMatches env body = true := by
    rw [signatureMatches, hs]
    simp [generatedSignature, hgen]
  simp [verifyPaymentHandler, hm]

/-- C10 witness: a valid signature with a failed upstream lookup yields the
propagated 404 and provider payload under verified:false. -/
theorem claim_C10_witness :
    verifyPaymentHandler envEx verifyBodyOk
        (AxiosResult.fail (some ⟨404, provErrData⟩) "Request failed with status code 404") =
      (⟨404, Json.obj [("verified", Json.bool false), ("error", provErrData)]⟩,
       [⟨"GET", RAZORPAY_API ++ "/payments/pay_123", none⟩]) := by
  have h := claim_C10_verify_upstream_failure envEx verifyBodyOk
    (AxiosResult.fail (some ⟨404, provErrData⟩) "Request failed with status code 404")
    (hmacSha256Hex "test_secret" "order_123|pay_123") rfl rfl
    (some ⟨404, provErrData⟩) "Request failed with status code 404" rfl
  exact h

end RazorpayProxy
